import Mathlib

/-!
Shallow embedding of `src/gaia-trainer.js` (class `GaiaAiTrainingBot`).

The bot owns one WebSocket connection, cycles through a prompt list at a
fixed pace, records every sent prompt and every received response in an
append-only in-memory ledger (`trainingData`), and keeps running counters
(`stats`).  We embed:

* the configuration resolution of the constructor (lines 12-20), including
  the JavaScript `||` defaulting followed by the `...config` spread that
  re-overrides the defaulted fields with any supplied value;
* `getTrainingPrompts` (lines 48-143) with the six built-in categories and
  the custom fallback;
* `sendMessage` (lines 205-231); the error path carries the state at throw
  time so that absence of partial mutation is expressible;
* `handleResponse` (lines 188-203), decomposed into its sequence of atomic
  mutations so that the order of the counter increment and the ledger
  append is observable;
* the inbound `message` callback of `connectToNode` (lines 157-165);
* `trainingLoop` (lines 256-302) as a fuel-indexed recursion.  Transport
  faults are injected through a schedule (`IterPlan` list): `drop` means
  the connection was lost before the iteration's send (so `ws.readyState`
  is no longer OPEN and `sendMessage` throws) and `reconnectOk` gives the
  outcome of the `connectToNode` retry in the catch block.  An exhausted
  schedule behaves benignly (no drop), matching a fault-free transport.

Wall-clock time (`startTime`, timestamps, `sleep`) and the log file write
are not modelled; no claim depends on them.
-/

/-- Kind of a recorded training-data entry (`type` field of the pushed
objects: `'prompt'` in `sendMessage`, `'response'` in `handleResponse`). -/
inductive EvKind where
  | prompt : EvKind
  | response : EvKind
deriving DecidableEq, Repr

instance : BEq EvKind := ⟨fun a b => decide (a = b)⟩

/-- One entry of the `trainingData` ledger: kind, text content and the
owning session sequence number (the `session` field of the pushed object). -/
structure Event where
  kind : EvKind
  content : String
  session : Nat
deriving DecidableEq, Repr

/-- The `this.stats` record (lines 25-31); `startTime` is wall-clock and not
modelled. -/
structure Stats where
  messageCount : Nat
  sessionCount : Nat
  responses : Nat
  errors : Nat
deriving DecidableEq, Repr

/-- Resolved configuration (`this.config`, lines 12-20).  Numeric fields are
integers since the CLI `parseInt` can supply negative values. -/
structure Config where
  nodeUrl : String
  trainingMode : String
  messageInterval : Int
  maxMessages : Int
  customPrompts : List String
  logFile : String
deriving DecidableEq, Repr

/-- The configuration object handed to the constructor: each field is
`some v` when the caller supplied the key and `none` when it is absent. -/
structure SuppliedConfig where
  nodeUrl : Option String
  trainingMode : Option String
  messageInterval : Option Int
  maxMessages : Option Int
  customPrompts : Option (List String)
  logFile : Option String
deriving DecidableEq, Repr

/-- JavaScript `v || d` for a possibly-absent number: `0` (and absence) is
falsy and falls back to the default. -/
def jsOrInt (v : Option Int) (d : Int) : Int :=
  match v with
  | some x => if x = 0 then d else x
  | none => d

/-- JavaScript `v || d` for a possibly-absent string: the empty string (and
absence) is falsy and falls back to the default. -/
def jsOrStr (v : Option String) (d : String) : String :=
  match v with
  | some x => if x = "" then d else x
  | none => d

/-- Constructor configuration resolution (lines 12-20).  The object literal
first computes each field as `config.field || default`, then the trailing
`...config` spread overwrites every field whose key is present in the
supplied object with the supplied value (later properties win in a
JavaScript object literal).  `today` stands for
`new Date().toISOString().split('T')[0]`. -/
def resolveConfig (c : SuppliedConfig) (today : String) : Config :=
  let base : Config := {
    nodeUrl := jsOrStr c.nodeUrl "ws://localhost:8080/chat"
    trainingMode := jsOrStr c.trainingMode "general"
    messageInterval := jsOrInt c.messageInterval 3000
    maxMessages := jsOrInt c.maxMessages 50
    -- a JavaScript array is truthy even when empty, so `|| []` only
    -- replaces an absent key
    customPrompts := c.customPrompts.getD []
    logFile := jsOrStr c.logFile ("gaia-training-" ++ today ++ ".json") }
  { nodeUrl := c.nodeUrl.getD base.nodeUrl
    trainingMode := c.trainingMode.getD base.trainingMode
    messageInterval := c.messageInterval.getD base.messageInterval
    maxMessages := c.maxMessages.getD base.maxMessages
    customPrompts := c.customPrompts.getD base.customPrompts
    logFile := c.logFile.getD base.logFile }

/-- The `general` prompt list (lines 50-66). -/
def generalPrompts : List String := [
  "Hello, how are you today?",
  "What's your favorite color and why?",
  "Tell me about the weather",
  "What do you think about artificial intelligence?",
  "Can you help me with a problem?",
  "What's the meaning of life?",
  "How do you stay motivated?",
  "What's your opinion on climate change?",
  "Tell me a joke",
  "What's your favorite book?",
  "How do you spend your free time?",
  "What makes you happy?",
  "Can you explain something complex in simple terms?",
  "What would you do if you could time travel?",
  "What's the most important lesson you've learned?"]

/-- The `qa` prompt list (lines 67-83). -/
def qaPrompts : List String := [
  "What is machine learning?",
  "How does photosynthesis work?",
  "What are the benefits of renewable energy?",
  "Explain quantum computing",
  "What causes earthquakes?",
  "How do vaccines work?",
  "What is blockchain technology?",
  "Explain the theory of relativity",
  "What is DNA?",
  "How do computers process information?",
  "What is artificial neural networks?",
  "How does the internet work?",
  "What is climate change?",
  "Explain the water cycle",
  "What are black holes?"]

/-- The `creative` prompt list (lines 84-100). -/
def creativePrompts : List String := [
  "Write a short story about a time traveler",
  "Create a poem about the ocean",
  "Describe a futuristic city",
  "Write a dialogue between two robots",
  "Create a character for a fantasy novel",
  "Write a song about friendship",
  "Describe a magical forest",
  "Create a superhero origin story",
  "Write a letter from the future",
  "Describe an alien civilization",
  "Imagine a world without gravity",
  "Create a story about a sentient AI",
  "Describe your dream house",
  "Write about a day in 2050",
  "Create a conversation between Earth and Mars"]

/-- The `technical` prompt list (lines 101-117). -/
def technicalPrompts : List String := [
  "Explain RESTful API design principles",
  "What are the differences between SQL and NoSQL?",
  "How does encryption work?",
  "Explain microservices architecture",
  "What is containerization with Docker?",
  "How do neural networks learn?",
  "What is version control with Git?",
  "Explain cloud computing concepts",
  "What are design patterns in programming?",
  "How does blockchain consensus work?",
  "What is GraphQL vs REST?",
  "Explain serverless architecture",
  "What are the principles of clean code?",
  "How does machine learning training work?",
  "What is DevOps and CI/CD?"]

/-- The `educational` prompt list (lines 118-134). -/
def educationalPrompts : List String := [
  "Teach me about the solar system",
  "Explain basic chemistry concepts",
  "What is the scientific method?",
  "How do plants grow?",
  "Explain the water cycle",
  "What is evolution?",
  "How do muscles work?",
  "Explain the food chain",
  "What causes seasons?",
  "How do we see colors?",
  "What is the structure of an atom?",
  "How does the brain work?",
  "What are the laws of physics?",
  "Explain cellular respiration",
  "What is genetic inheritance?"]

/-- Fallback used for the `custom` category when `customPrompts` is empty
(lines 135-139). -/
def defaultCustomPrompts : List String := [
  "Tell me about your capabilities",
  "What can you help me with?",
  "How do you process information?"]

/-- `getTrainingPrompts` (lines 48-143): the prompt list
`prompts[this.config.trainingMode] || prompts.general` evaluates to,
restricted to training modes that do not name an inherited
`Object.prototype` member.  The full bracket-access semantics, including
the prototype chain that a mode such as "constructor" reaches, is
`getTrainingPromptsValue` below, proved to agree with this restriction on
all other modes (`getTrainingPromptsValue_eq_arr`); the training-loop
embedding consumes this list-valued form. -/
def getTrainingPrompts (cfg : Config) : List String :=
  let customList :=
    if 0 < cfg.customPrompts.length then cfg.customPrompts
    else defaultCustomPrompts
  if cfg.trainingMode = "general" then generalPrompts
  else if cfg.trainingMode = "qa" then qaPrompts
  else if cfg.trainingMode = "creative" then creativePrompts
  else if cfg.trainingMode = "technical" then technicalPrompts
  else if cfg.trainingMode = "educational" then educationalPrompts
  else if cfg.trainingMode = "custom" then customList
  else generalPrompts

/-- Whole mutable state of a `GaiaAiTrainingBot` instance.  `connected`
abstracts `this.ws !== null && this.ws.readyState === WebSocket.OPEN`. -/
structure BotState where
  connected : Bool
  isRunning : Bool
  isPaused : Bool
  stats : Stats
  trainingData : List Event
  currentPromptIndex : Nat
deriving DecidableEq, Repr

/-- State set up by the constructor (lines 22-34). -/
def initialState : BotState :=
  { connected := false
    isRunning := false
    isPaused := false
    stats := { messageCount := 0, sessionCount := 0, responses := 0, errors := 0 }
    trainingData := []
    currentPromptIndex := 0 }

/-- `sendMessage` (lines 205-231).  The guard throws before any mutation;
the error value carries the state at throw time, so an `error` result
exhibits exactly which mutations had happened when the exception was
raised (for the not-connected guard: none). -/
def sendMessage (s : BotState) (message : String) : Except (String × BotState) BotState :=
  if s.connected = false then
    Except.error ("WebSocket not connected", s)
  else
    Except.ok
      { s with
        stats := { s.stats with messageCount := s.stats.messageCount + 1 }
        trainingData := s.trainingData ++
          [{ kind := EvKind.prompt, content := message, session := s.stats.sessionCount }] }

/-- A JSON value, as far as `handleResponse` can observe one: a parsed
payload field can hold any JSON value, and the code only ever tests its
truthiness (the `||` chain at line 190) and calls `String.substring` on
the selected value (line 193), so values beyond strings need only
distinguish absence and truthiness.  `undef` is an absent field. -/
inductive JsVal where
  | undef : JsVal
  | vnull : JsVal
  | vbool : Bool → JsVal
  | vnum : Int → JsVal
  | vstr : String → JsVal
deriving DecidableEq, Repr

/-- JavaScript truthiness of a `JsVal`: `undefined`, `null`, `false`, `0`
and the empty string are falsy, everything else is truthy. -/
def jsTruthy : JsVal → Bool
  | JsVal.undef => false
  | JsVal.vnull => false
  | JsVal.vbool b => b
  | JsVal.vnum n => n != 0
  | JsVal.vstr s => s != ""

/-- Inbound structured payload, restricted to the three fields the code
inspects (`message`, `content`, `text`); each field holds an arbitrary
JSON value, `undef` when the key is absent. -/
structure Payload where
  message : JsVal
  content : JsVal
  text : JsVal
deriving DecidableEq, Repr

/-- Line 190: `response.message || response.content || response.text ||
'Response received'` — the selected JavaScript value, which need not be a
string. -/
def extractVal (p : Payload) : JsVal :=
  if jsTruthy p.message then p.message
  else if jsTruthy p.content then p.content
  else if jsTruthy p.text then p.text
  else JsVal.vstr "Response received"

/-- Whether the `handleResponse` call throws: line 193 calls
`message.substring(0, 100)`, and only strings have `substring`, so a
truthy non-string selected value raises a TypeError there — after the
counter increment of line 189, before the ledger push of lines 195-200. -/
def handleResponseThrows (p : Payload) : Bool :=
  match extractVal p with
  | JsVal.vstr _ => false
  | _ => true

/-- Atomic mutations performed by `handleResponse`, in program order. -/
inductive HAction where
  | incResponses : HAction
  | appendEvent : Event → HAction
  | emitResp : HAction
deriving DecidableEq, Repr

/-- Effect of one atomic `handleResponse` mutation on the bot state
(`this.emit('response', ...)` has no effect on the modelled state). -/
def applyHAction (s : BotState) (a : HAction) : BotState :=
  match a with
  | HAction.incResponses =>
      { s with stats := { s.stats with responses := s.stats.responses + 1 } }
  | HAction.appendEvent e => { s with trainingData := s.trainingData ++ [e] }
  | HAction.emitResp => s

/-- The mutations a `handleResponse` call (lines 188-203) performs before
returning or throwing, in the order the source performs them:
`this.stats.responses++` (line 189) always happens first; the
`trainingData.push` of the response Event (lines 195-200) and the `emit`
(line 202) happen only when the selected value is a string — otherwise
`substring` throws at line 193, right after the increment. -/
def handleResponseTrace (s : BotState) (p : Payload) : List HAction :=
  match extractVal p with
  | JsVal.vstr m =>
      [HAction.incResponses,
       HAction.appendEvent
         { kind := EvKind.response, content := m, session := s.stats.sessionCount },
       HAction.emitResp]
  | _ => [HAction.incResponses]

/-- State after a `handleResponse` call, whether it returned normally or
threw at line 193 (the mutations made before the throw persist). -/
def handleResponse (s : BotState) (p : Payload) : BotState :=
  (handleResponseTrace s p).foldl applyHAction s

/-- The `message` callback installed by `connectToNode` (lines 157-165).
The `try` wraps BOTH `JSON.parse` and the `handleResponse` call, so its
`catch` fires on a decode failure or on a TypeError thrown inside
`handleResponse`; either way it re-invokes `handleResponse` on
`{ message: data.toString() }` — which always returns normally, since a
string (or, for the empty string, the placeholder) is selected. -/
def rawTextPayload (raw : String) : Payload :=
  { message := JsVal.vstr raw, content := JsVal.undef, text := JsVal.undef }

def onMessageData (decoded : Option Payload) (raw : String) (s : BotState) : BotState :=
  match decoded with
  | some p =>
      let s1 := handleResponse s p
      if handleResponseThrows p then handleResponse s1 (rawTextPayload raw)
      else s1
  | none => handleResponse s (rawTextPayload raw)

/-- Membership test used to embed `error.message.includes('WebSocket')`:
pattern list is a prefix of the list. -/
def listHasPre (pat l : List Char) : Bool :=
  match pat, l with
  | [], _ => true
  | _ :: _, [] => false
  | p :: ps, c :: cs => p == c && listHasPre ps cs

/-- Substring occurrence over character lists. -/
def listHasSub (pat : List Char) : List Char → Bool
  | [] => listHasPre pat []
  | c :: cs => listHasPre pat (c :: cs) || listHasSub pat cs

/-- JavaScript `s.includes(pat)`. -/
def jsIncludes (s pat : String) : Bool :=
  listHasSub pat.data s.data

/-- The pacing step of the training loop (lines 268-269): read the prompt
at the cursor modulo the sequence length and advance the cursor by one. -/
def nextPrompt (prompts : List String) (i : Nat) : Option String × Nat :=
  (prompts.get? (i % prompts.length), i + 1)

/-- Prompt text the loop sends at cursor position `i`. -/
def promptAt (cfg : Config) (i : Nat) : String :=
  ((nextPrompt (getTrainingPrompts cfg) i).1).getD ""

/-- Environment of one loop iteration: whether the connection was lost
before the iteration's send attempt, and, if a reconnect is then
attempted, whether `connectToNode` succeeds. -/
structure IterPlan where
  drop : Bool
  reconnectOk : Bool
deriving DecidableEq, Repr

/-- A fault-free iteration environment (also the behaviour of an exhausted
schedule). -/
def benignPlan : IterPlan := { drop := false, reconnectOk := true }

/-- `trainingLoop`'s while loop (lines 260-295), fuel-indexed.  `count` is
the local `currentMessageCount`; `plans` is consumed one entry per
iteration.  `none` means the fuel ran out before the loop exited; the
source loop has no such bound, so any terminating run is reproduced with
enough fuel. -/
def loopCore (cfg : Config) : List IterPlan → Nat → BotState → Nat → Option BotState
  | _, 0, s, count =>
      if s.isRunning = true ∧ (count : Int) < cfg.maxMessages then none else some s
  | plans, fuel + 1, s, count =>
      if s.isRunning = true ∧ (count : Int) < cfg.maxMessages then
        if s.isPaused = true then
          -- line 261-264: sleep and re-check; no state change
          loopCore cfg plans fuel s count
        else
          let plan := plans.headD benignPlan
          let s1 := if plan.drop then { s with connected := false } else s
          let pr := (nextPrompt (getTrainingPrompts cfg) s1.currentPromptIndex).1.getD ""
          let s2 := { s1 with
            currentPromptIndex := (nextPrompt (getTrainingPrompts cfg) s1.currentPromptIndex).2 }
          match sendMessage s2 pr with
          | Except.ok s3 =>
              -- lines 271-278: success, count the send and continue
              loopCore cfg plans.tail fuel s3 (count + 1)
          | Except.error (msg, s3) =>
              -- lines 280-293: catch block
              let s4 := { s3 with stats := { s3.stats with errors := s3.stats.errors + 1 } }
              if jsIncludes msg "WebSocket" then
                if plan.reconnectOk then
                  loopCore cfg plans.tail fuel { s4 with connected := true } count
                else
                  -- line 291: reconnection failed, break out of the loop
                  some s4
              else
                loopCore cfg plans.tail fuel s4 count
      else some s

/-- `stopTraining` (lines 326-337): clear the run and pause flags and close
the socket (log saving and summary printing have no state effect). -/
def stopTraining (s : BotState) : BotState :=
  { s with isRunning := false, isPaused := false, connected := false }

/-- `startTraining` (lines 233-254) on the successful-connect path: mark the
session running and bump the session sequence number. -/
def startTraining (s : BotState) : BotState :=
  { s with
    connected := true
    isRunning := true
    stats := { s.stats with sessionCount := s.stats.sessionCount + 1 } }

/-- `trainingLoop` (lines 256-302): run the while loop from
`currentMessageCount = 0`, then always `stopTraining`. -/
def trainingLoop (cfg : Config) (plans : List IterPlan) (fuel : Nat) (s : BotState) :
    Option BotState :=
  (loopCore cfg plans fuel s 0).map stopTraining

/-- A full session: constructor state, successful initial connect via
`startTraining`, then the training loop. -/
def runSession (cfg : Config) (plans : List IterPlan) (fuel : Nat) : Option BotState :=
  trainingLoop cfg plans fuel (startTraining initialState)

/-- One successful send as the loop performs it: cursor advance, then the
`sendMessage` mutations (counter increment and prompt-Event append). -/
def succSend (cfg : Config) (s : BotState) : BotState :=
  { s with
    currentPromptIndex := s.currentPromptIndex + 1
    stats := { s.stats with messageCount := s.stats.messageCount + 1 }
    trainingData := s.trainingData ++
      [{ kind := EvKind.prompt, content := promptAt cfg s.currentPromptIndex,
         session := s.stats.sessionCount }] }

/-- Net effect of a failed send followed by a successful reconnect: the
cursor was already advanced, the error was counted, no Event was
appended, and the connection is open again. -/
def failSendReconnect (s : BotState) : BotState :=
  { s with
    connected := true
    currentPromptIndex := s.currentPromptIndex + 1
    stats := { s.stats with errors := s.stats.errors + 1 } }

/-- Net effect of a failed send followed by a failed reconnect: as above
but the connection stays closed. -/
def failSendStop (s : BotState) : BotState :=
  { s with
    connected := false
    currentPromptIndex := s.currentPromptIndex + 1
    stats := { s.stats with errors := s.stats.errors + 1 } }

/-! ## Claim C8: the pacing step is total, cyclic and advances by one -/

/-- C8: for a non-empty prompt sequence of length `L` and any cursor `i`,
the pacing step returns the element at index `i % L` (so it never fails),
advances the cursor by exactly one, and is periodic in `L`, so a short
custom list wraps around. -/
theorem nextPrompt_cyclic (prompts : List String) (i : Nat) (h : 0 < prompts.length) :
    (∃ hi : i % prompts.length < prompts.length,
      (nextPrompt prompts i).1 = some (prompts.get ⟨i % prompts.length, hi⟩)) ∧
    (nextPrompt prompts i).2 = i + 1 ∧
    (nextPrompt prompts (i + prompts.length)).1 = (nextPrompt prompts i).1 := by
  refine ⟨⟨Nat.mod_lt _ h, ?_⟩, rfl, ?_⟩
  · simp [nextPrompt, List.get?_eq_get (Nat.mod_lt _ h)]
  · simp [nextPrompt, Nat.add_mod_right]

/-- Witness for C8 at the concrete two-element sequence and cursor 3. -/
theorem nextPrompt_cyclic_witness :
    (∃ hi : 3 % (["a", "b"] : List String).length < (["a", "b"] : List String).length,
      (nextPrompt ["a", "b"] 3).1 = some ((["a", "b"] : List String).get
        ⟨3 % (["a", "b"] : List String).length, hi⟩)) ∧
    (nextPrompt ["a", "b"] 3).2 = 3 + 1 ∧
    (nextPrompt ["a", "b"] (3 + (["a", "b"] : List String).length)).1 =
      (nextPrompt ["a", "b"] 3).1 :=
  nextPrompt_cyclic ["a", "b"] 3 (by decide)

/-! ## Claim C9: sendMessage on a closed channel fails without mutation -/

/-- C9: invoking `sendMessage` while the channel is not open throws the
not-connected error, and the state carried at throw time is exactly the
input state: counters, cursor and ledger are untouched (the guard is the
first statement of the method, before any mutation). -/
theorem sendMessage_not_connected (s : BotState) (m : String) (h : s.connected = false) :
    sendMessage s m = Except.error ("WebSocket not connected", s) := by
  simp [sendMessage, h]

/-- Witness for C9 at the constructor state, whose channel is closed. -/
theorem sendMessage_not_connected_witness :
    sendMessage initialState "hi" = Except.error ("WebSocket not connected", initialState) :=
  sendMessage_not_connected initialState "hi" rfl

/-! ## Claim C10: the prompt-table lookup for unrecognized training modes -/

/-- Own property names of `Object.prototype` in Node, all bound to truthy
function or object values.  A bracket access on an object literal reaches
these through the prototype chain when the key is not an own key. -/
def objectProtoKeys : List String :=
  ["constructor", "hasOwnProperty", "isPrototypeOf", "propertyIsEnumerable",
   "toLocaleString", "toString", "valueOf", "__proto__",
   "__defineGetter__", "__defineSetter__", "__lookupGetter__", "__lookupSetter__"]

/-- Result of the JavaScript bracket access `prompts[key]` on the prompt
table literal of `getTrainingPrompts`: one of the six own prompt arrays,
or an inherited `Object.prototype` member (a truthy function or object,
tagged here by its key), or `undefined`. -/
inductive PromptsValue where
  | arr : List String → PromptsValue
  | protoProp : String → PromptsValue
  | undef : PromptsValue
deriving DecidableEq, Repr

/-- JavaScript `prompts[key]` (line 142): an own key shadows the prototype
chain; a key that is neither an own key nor an `Object.prototype` member
yields `undefined`. -/
def promptsGet (cfg : Config) (key : String) : PromptsValue :=
  let customList :=
    if 0 < cfg.customPrompts.length then cfg.customPrompts
    else defaultCustomPrompts
  if key = "general" then PromptsValue.arr generalPrompts
  else if key = "qa" then PromptsValue.arr qaPrompts
  else if key = "creative" then PromptsValue.arr creativePrompts
  else if key = "technical" then PromptsValue.arr technicalPrompts
  else if key = "educational" then PromptsValue.arr educationalPrompts
  else if key = "custom" then PromptsValue.arr customList
  else if key ∈ objectProtoKeys then PromptsValue.protoProp key
  else PromptsValue.undef

/-- The value `prompts[this.config.trainingMode] || prompts.general`
(line 142) evaluates to: arrays and inherited prototype members are
truthy, so only `undefined` falls back to the general set. -/
def getTrainingPromptsValue (cfg : Config) : PromptsValue :=
  match promptsGet cfg cfg.trainingMode with
  | PromptsValue.undef => PromptsValue.arr generalPrompts
  | v => v

/-- Off the `Object.prototype` keys, the full bracket-access semantics
agrees with the list-valued restriction `getTrainingPrompts` that the
training-loop embedding consumes. -/
theorem getTrainingPromptsValue_eq_arr (cfg : Config)
    (h : ¬ cfg.trainingMode ∈ objectProtoKeys) :
    getTrainingPromptsValue cfg = PromptsValue.arr (getTrainingPrompts cfg) := by
  by_cases h1 : cfg.trainingMode = "general"
  · simp [getTrainingPromptsValue, promptsGet, getTrainingPrompts, h1]
  by_cases h2 : cfg.trainingMode = "qa"
  · simp [getTrainingPromptsValue, promptsGet, getTrainingPrompts, h1, h2]
  by_cases h3 : cfg.trainingMode = "creative"
  · simp [getTrainingPromptsValue, promptsGet, getTrainingPrompts, h1, h2, h3]
  by_cases h4 : cfg.trainingMode = "technical"
  · simp [getTrainingPromptsValue, promptsGet, getTrainingPrompts, h1, h2, h3, h4]
  by_cases h5 : cfg.trainingMode = "educational"
  · simp [getTrainingPromptsValue, promptsGet, getTrainingPrompts, h1, h2, h3, h4, h5]
  by_cases h6 : cfg.trainingMode = "custom"
  · simp [getTrainingPromptsValue, promptsGet, getTrainingPrompts, h1, h2, h3, h4, h5, h6]
  simp [getTrainingPromptsValue, promptsGet, getTrainingPrompts, h1, h2, h3, h4, h5, h6, h]

/-- Configuration whose training mode names an inherited
`Object.prototype` member. -/
def constructorConfig : Config :=
  { nodeUrl := ""
    trainingMode := "constructor"
    messageInterval := 0
    maxMessages := 0
    customPrompts := []
    logFile := "" }

/-- C10 counterexample: the training mode "constructor" is not one of the
six recognized categories, yet `prompts[mode]` reaches the inherited,
truthy `Object.prototype.constructor` through the prototype chain, so the
`|| prompts.general` fallback never fires and the session does NOT use
the built-in general set (the value used is not a prompt array at all). -/
theorem unknownMode_can_hit_prototype :
    getTrainingPromptsValue constructorConfig = PromptsValue.protoProp "constructor" ∧
    getTrainingPromptsValue constructorConfig ≠ PromptsValue.arr generalPrompts := by
  decide

/-- C10 (amended): for every training-mode string that is none of the six
recognized categories AND not the name of an inherited `Object.prototype`
member (constructor, toString, __proto__, ...), the lookup falls back to
the built-in general set, which is non-empty — not an error and not an
empty sequence.  A mode naming a prototype member instead yields that
inherited truthy value. -/
theorem getTrainingPrompts_unknown_mode (cfg : Config)
    (h1 : cfg.trainingMode ≠ "general") (h2 : cfg.trainingMode ≠ "qa")
    (h3 : cfg.trainingMode ≠ "creative") (h4 : cfg.trainingMode ≠ "technical")
    (h5 : cfg.trainingMode ≠ "educational") (h6 : cfg.trainingMode ≠ "custom")
    (h7 : ¬ cfg.trainingMode ∈ objectProtoKeys) :
    getTrainingPromptsValue cfg = PromptsValue.arr generalPrompts ∧
    generalPrompts ≠ [] := by
  constructor
  · simp [getTrainingPromptsValue, promptsGet, h1, h2, h3, h4, h5, h6, h7]
  · simp [generalPrompts]

/-- Configuration with an unrecognized training mode, for the C10 witness. -/
def bananaConfig : Config :=
  { nodeUrl := ""
    trainingMode := "banana"
    messageInterval := 0
    maxMessages := 0
    customPrompts := []
    logFile := "" }

/-- Witness for the amended C10 at the unrecognized mode string "banana",
which is neither a category nor a prototype member. -/
theorem getTrainingPrompts_unknown_mode_witness :
    getTrainingPromptsValue bananaConfig = PromptsValue.arr generalPrompts ∧
    generalPrompts ≠ [] :=
  getTrainingPrompts_unknown_mode bananaConfig (by decide) (by decide) (by decide)
    (by decide) (by decide) (by decide) (by decide)

/-! ## Claim C6: bounds of the resolved configuration -/

/-- Supplied configuration carrying a zero message ceiling and a negative
interval, for the C6 counterexample. -/
def badSupplied : SuppliedConfig :=
  { nodeUrl := none
    trainingMode := none
    messageInterval := some (-1)
    maxMessages := some 0
    customPrompts := none
    logFile := none }

/-- C6 counterexample: a supplied `maxMessages = 0` and a supplied
`messageInterval = -1` both survive resolution (the trailing `...config`
spread overwrites the `|| default` fields with the supplied values), so the
resolved configuration violates `maxMessages >= 1` and `interval >= 0`. -/
theorem resolveConfig_nonpositive_survives :
    (resolveConfig badSupplied "2026-01-01").maxMessages = 0 ∧
    (resolveConfig badSupplied "2026-01-01").messageInterval = -1 ∧
    ¬(1 ≤ (resolveConfig badSupplied "2026-01-01").maxMessages ∧
      0 ≤ (resolveConfig badSupplied "2026-01-01").messageInterval) := by
  decide

/-- C6 (amended): the resolved configuration satisfies `maxMessages >= 1`
and `interval >= 0` provided every supplied value already satisfies its
bound (absent fields resolve to the defaults 50 and 3000); a supplied
out-of-range value survives resolution unchanged. -/
theorem resolveConfig_bounds (c : SuppliedConfig) (today : String)
    (hm : ∀ v, c.maxMessages = some v → 1 ≤ v)
    (hi : ∀ v, c.messageInterval = some v → 0 ≤ v) :
    1 ≤ (resolveConfig c today).maxMessages ∧
    0 ≤ (resolveConfig c today).messageInterval := by
  constructor
  · cases hc : c.maxMessages with
    | none => simp [resolveConfig, hc, jsOrInt]
    | some v => simpa [resolveConfig, hc] using hm v hc
  · cases hc : c.messageInterval with
    | none => simp [resolveConfig, hc, jsOrInt]
    | some v => simpa [resolveConfig, hc] using hi v hc

/-- Supplied configuration with no keys at all. -/
def emptySupplied : SuppliedConfig :=
  { nodeUrl := none
    trainingMode := none
    messageInterval := none
    maxMessages := none
    customPrompts := none
    logFile := none }

/-- Witness for the amended C6 at the empty supplied configuration. -/
theorem resolveConfig_bounds_witness :
    1 ≤ (resolveConfig emptySupplied "2026-01-01").maxMessages ∧
    0 ≤ (resolveConfig emptySupplied "2026-01-01").messageInterval :=
  resolveConfig_bounds emptySupplied "2026-01-01"
    (fun v h => by simp [emptySupplied] at h)
    (fun v h => by simp [emptySupplied] at h)

/-! ## Claim C7: inbound text extraction -/

/-- Modelled from the spec's words, for comparison with `extractVal` (C7):
the displayed value is taken from the first field that is PRESENT in the
fixed order `message`, `content`, `text`, with a generic placeholder when
none is present. -/
def specFirstPresentVal (p : Payload) : JsVal :=
  match p.message with
  | JsVal.undef =>
    (match p.content with
     | JsVal.undef =>
       (match p.text with
        | JsVal.undef => JsVal.vstr "Response received"
        | t => t)
     | c => c)
  | m => m

/-- Payload whose `message` field is present but holds the empty string. -/
def emptyMsgPayload : Payload :=
  { message := JsVal.vstr "", content := JsVal.vstr "hi", text := JsVal.undef }

/-- Payload whose `message` field holds the truthy number 123 and whose
`content` field holds a string. -/
def numContentPayload : Payload :=
  { message := JsVal.vnum 123, content := JsVal.vstr "hi", text := JsVal.undef }

/-- C7 counterexample, at two concrete inbound payloads.  First: a present
but empty `message` field is skipped (the `||` chain at line 190 tests
truthiness, and the empty string is falsy), so the code selects `content`
where the claim's first-present-field rule selects the empty `message`.
Second: when the first present field holds the truthy number 123, no
field's text is logged at all — `substring` throws at line 193, the
callback's catch re-handles the event, and the ledger records the raw
payload text instead. -/
theorem extractText_presence_mismatch :
    (extractVal emptyMsgPayload = JsVal.vstr "hi" ∧
     specFirstPresentVal emptyMsgPayload = JsVal.vstr "" ∧
     extractVal emptyMsgPayload ≠ specFirstPresentVal emptyMsgPayload) ∧
    (onMessageData (some numContentPayload) "rawtext" initialState).trainingData.map
      (fun e => e.content) = ["rawtext"] := by
  decide

/-- The first field value that is truthy in the order `message`,
`content`, `text`, with the placeholder when none is truthy: the amended
selection rule. -/
def specFirstTruthyVal (p : Payload) : JsVal :=
  ([p.message, p.content, p.text].filter jsTruthy).headD (JsVal.vstr "Response received")

/-- C7 (amended): the code selects the first field that is present with a
truthy value in the fixed order `message`, `content`, `text` (a present
but empty-string field is skipped), defaulting to the generic
placeholder.  When the selected value is a string, that string is the
recorded response text; when it is a truthy non-string, the display code
throws and the message callback re-handles the event, recording the whole
raw payload text instead (the placeholder when the raw text is empty).  A
payload that fails structured decoding is treated as raw text under the
`message` field. -/
theorem extractText_amended (p : Payload) (raw : String) (s : BotState) :
    extractVal p = specFirstTruthyVal p ∧
    (handleResponse s p).trainingData = s.trainingData ++
      (match extractVal p with
       | JsVal.vstr m =>
           [{ kind := EvKind.response, content := m, session := s.stats.sessionCount }]
       | _ => []) ∧
    onMessageData none raw s = handleResponse s (rawTextPayload raw) ∧
    (onMessageData (some p) raw s).trainingData = s.trainingData ++
      (match extractVal p with
       | JsVal.vstr m =>
           [{ kind := EvKind.response, content := m, session := s.stats.sessionCount }]
       | _ =>
           [{ kind := EvKind.response,
              content := if raw = "" then "Response received" else raw,
              session := s.stats.sessionCount }]) := by
  refine ⟨?_, ?_, rfl, ?_⟩
  · rcases p with ⟨m, c, t⟩
    cases hm : jsTruthy m <;> cases hc : jsTruthy c <;> cases ht : jsTruthy t <;>
      simp [extractVal, specFirstTruthyVal, hm, hc, ht]
  · cases hv : extractVal p <;>
      simp [handleResponse, handleResponseTrace, hv, applyHAction]
  · have hrp : extractVal (rawTextPayload raw) =
        JsVal.vstr (if raw = "" then "Response received" else raw) := by
      by_cases hr : raw = "" <;> simp [extractVal, rawTextPayload, jsTruthy, hr]
    cases hv : extractVal p <;>
      simp [onMessageData, handleResponseThrows, hv, handleResponse,
        handleResponseTrace, applyHAction, hrp]

/-! ## Claim C2: the responses counter and the response Event append -/

/-- Recognizer for the counter-increment mutation. -/
def isInc : HAction → Bool
  | HAction.incResponses => true
  | _ => false

/-- Recognizer for the append of a `response`-kind Event. -/
def isRespAppend : HAction → Bool
  | HAction.appendEvent e => e.kind == EvKind.response
  | _ => false

/-- Inbound payload holding a plain string message. -/
def helloPayload : Payload :=
  { message := JsVal.vstr "hello", content := JsVal.undef, text := JsVal.undef }

/-- Inbound payload whose `message` field holds the number 123, as decoded
from a wire payload with a numeric message field. -/
def numMsgPayload : Payload :=
  { message := JsVal.vnum 123, content := JsVal.undef, text := JsVal.undef }

/-- C2 counterexample, failing the claim twice over at concrete inputs.
In the mutation order `handleResponse` performs on a string payload, no
append of the response Event precedes the counter increment — line 189
(`this.stats.responses++`) runs before the `push` of lines 195-200, so
the increment does NOT happen after the append.  And for an inbound event
decoding to a numeric `message` field, the counter is incremented twice
rather than exactly once: the first `handleResponse` call throws at the
`substring` of line 193 after its increment, and the callback's catch
re-handles the raw text through a second, counted call. -/
theorem handleResponse_increment_not_after_append :
    (¬ ∃ i j : Fin (handleResponseTrace initialState helloPayload).length,
        i < j ∧
        isRespAppend ((handleResponseTrace initialState helloPayload).get i) = true ∧
        isInc ((handleResponseTrace initialState helloPayload).get j) = true) ∧
    (onMessageData (some numMsgPayload) "rawtext" initialState).stats.responses = 2 := by
  decide

/-- C2 (amended): each `handleResponse` call increments the
responses-received counter exactly once, and the increment comes FIRST in
its mutation order — before, never after, any append of the response
Event; the Event is appended exactly once per returning call and not at
all when the call throws at line 193.  Per inbound message event the
counter therefore rises by one, except that a decoded payload whose
selected display value is a truthy non-string makes the call throw after
its increment, and the callback's catch re-handles the raw text through a
second call, incrementing twice in total. -/
theorem handleResponse_increment_once_before_append (s : BotState) (p : Payload)
    (decoded : Option Payload) (raw : String) :
    (handleResponseTrace s p).countP isInc = 1 ∧
    (handleResponseTrace s p).head? = some HAction.incResponses ∧
    (handleResponseTrace s p).countP isRespAppend =
      (if handleResponseThrows p = true then 0 else 1) ∧
    (handleResponse s p).stats.responses = s.stats.responses + 1 ∧
    (onMessageData decoded raw s).stats.responses = s.stats.responses +
      (match decoded with
       | none => 1
       | some q => if handleResponseThrows q = true then 2 else 1) := by
  have hone : ∀ (t : BotState) (q : Payload),
      (handleResponse t q).stats.responses = t.stats.responses + 1 := by
    intro t q
    cases hv : extractVal q <;>
      simp [handleResponse, handleResponseTrace, hv, applyHAction]
  refine ⟨?_, ?_, ?_, hone s p, ?_⟩
  · cases hv : extractVal p <;> simp [handleResponseTrace, hv, isInc]
  · cases hv : extractVal p <;> simp [handleResponseTrace, hv]
  · cases hv : extractVal p <;>
      simp [handleResponseTrace, handleResponseThrows, hv, isRespAppend]
  · cases decoded with
    | none =>
      simp only [onMessageData]
      exact hone s _
    | some q =>
      by_cases hth : handleResponseThrows q = true
      · simp only [onMessageData, hth, if_pos]
        rw [hone, hone]
      · simp only [onMessageData, hth]
        simp [hone]

/-! ## Training-loop step lemmas -/

/-- The error message of the not-connected guard contains the substring
checked by the catch block of the training loop (line 285). -/
theorem jsIncludes_webSocket : jsIncludes "WebSocket not connected" "WebSocket" = true := by
  decide

/-- Iterating the successful-send step `k` times adds `k` to the
messages-sent counter and the cursor, appends the `k` prompt Events taken
at consecutive cursor positions, and leaves every other component of the
state unchanged. -/
theorem succSend_iter (cfg : Config) (s : BotState) (k : Nat) :
    ((succSend cfg)^[k] s).stats.messageCount = s.stats.messageCount + k ∧
    ((succSend cfg)^[k] s).stats.errors = s.stats.errors ∧
    ((succSend cfg)^[k] s).stats.responses = s.stats.responses ∧
    ((succSend cfg)^[k] s).stats.sessionCount = s.stats.sessionCount ∧
    ((succSend cfg)^[k] s).currentPromptIndex = s.currentPromptIndex + k ∧
    ((succSend cfg)^[k] s).connected = s.connected ∧
    ((succSend cfg)^[k] s).isRunning = s.isRunning ∧
    ((succSend cfg)^[k] s).isPaused = s.isPaused ∧
    ((succSend cfg)^[k] s).trainingData = s.trainingData ++
      (List.range k).map (fun j =>
        { kind := EvKind.prompt, content := promptAt cfg (s.currentPromptIndex + j),
          session := s.stats.sessionCount }) := by
  induction k with
  | zero => simp
  | succ k ih =>
    obtain ⟨h1, h2, h3, h4, h5, h6, h7, h8, h9⟩ := ih
    rw [Function.iterate_succ_apply']
    refine ⟨?_, ?_, ?_, ?_, ?_, ?_, ?_, ?_, ?_⟩ <;>
      simp [succSend, h1, h2, h3, h4, h5, h6, h7, h8, h9, List.range_succ, Nat.add_assoc]

/-- Exiting the while loop: when the state is no longer running or the
local message count has reached the ceiling, the loop returns the state
unchanged (for any remaining fuel and schedule). -/
theorem loopCore_exit (cfg : Config) (plans : List IterPlan) (fuel : Nat)
    (s : BotState) (count : Nat)
    (h : ¬(s.isRunning = true ∧ (count : Int) < cfg.maxMessages)) :
    loopCore cfg plans fuel s count = some s := by
  cases fuel <;> simp [loopCore, h]

/-- One loop iteration on an open connection with a benign environment:
the next prompt is consumed and sent, and the local count advances. -/
theorem loopCore_step_send (cfg : Config) (plans : List IterPlan) (fuel : Nat)
    (s : BotState) (count : Nat)
    (hr : s.isRunning = true) (hlt : (count : Int) < cfg.maxMessages)
    (hp : s.isPaused = false) (hd : (plans.headD benignPlan).drop = false)
    (hc : s.connected = true) :
    loopCore cfg plans (fuel + 1) s count =
      loopCore cfg plans.tail fuel (succSend cfg s) (count + 1) := by
  rw [List.headD_eq_head?] at hd
  rw [loopCore]
  simp [hr, hlt, hp, hd, hc, sendMessage, succSend, nextPrompt, promptAt]

/-- One loop iteration where the connection was lost before the send and
the reconnect succeeds: the prompt is consumed but not sent and not
recorded, the error is counted, the local count does not advance, and the
loop resumes on an open connection. -/
theorem loopCore_step_dropRec (cfg : Config) (plans : List IterPlan) (fuel : Nat)
    (s : BotState) (count : Nat)
    (hr : s.isRunning = true) (hlt : (count : Int) < cfg.maxMessages)
    (hp : s.isPaused = false)
    (hd : plans.headD benignPlan = { drop := true, reconnectOk := true }) :
    loopCore cfg plans (fuel + 1) s count =
      loopCore cfg plans.tail fuel (failSendReconnect s) count := by
  rw [List.headD_eq_head?] at hd
  rw [loopCore, List.headD_eq_head?, hd]
  simp [hr, hlt, hp, sendMessage, failSendReconnect, nextPrompt, jsIncludes_webSocket]

/-- One loop iteration where the connection was lost before the send and
the reconnect also fails: the catch block breaks out of the loop
immediately, returning with the error counted and the channel closed. -/
theorem loopCore_step_dropRecFail (cfg : Config) (plans : List IterPlan) (fuel : Nat)
    (s : BotState) (count : Nat)
    (hr : s.isRunning = true) (hlt : (count : Int) < cfg.maxMessages)
    (hp : s.isPaused = false)
    (hd : plans.headD benignPlan = { drop := true, reconnectOk := false }) :
    loopCore cfg plans (fuel + 1) s count = some (failSendStop s) := by
  rw [List.headD_eq_head?] at hd
  rw [loopCore, List.headD_eq_head?, hd]
  simp [hr, hlt, hp, sendMessage, failSendStop, nextPrompt, jsIncludes_webSocket]

/-- A run segment with no injected connection drops: from a running,
unpaused, connected state with local count `count`, the loop performs
exactly `N - count` further successful sends and exits normally, provided
the fuel covers them. -/
theorem loopCore_noDrop (cfg : Config) (N : Nat) (hN : cfg.maxMessages = (N : Int)) :
    ∀ fuel plans s count, (∀ p ∈ plans, p.drop = false) →
      s.connected = true → s.isRunning = true → s.isPaused = false →
      count ≤ N → N - count ≤ fuel →
      loopCore cfg plans fuel s count = some ((succSend cfg)^[N - count] s) := by
  intro fuel
  induction fuel with
  | zero =>
    intro plans s count _ _ _ _ hcn hf
    have hco : count = N := by omega
    have hnlt : ¬((count : Int) < cfg.maxMessages) := by
      rw [hN, hco]; exact lt_irrefl _
    rw [loopCore_exit cfg plans 0 s count (by tauto)]
    simp [show N - count = 0 by omega]
  | succ fuel ih =>
    intro plans s count hnd hc hr hp hcn hf
    by_cases hlt : count < N
    · have hd : (plans.headD benignPlan).drop = false := by
        cases plans with
        | nil => rfl
        | cons p ps => exact hnd p (List.mem_cons_self p ps)
      have hltI : (count : Int) < cfg.maxMessages := by rw [hN]; exact_mod_cast hlt
      rw [loopCore_step_send cfg plans fuel s count hr hltI hp hd hc]
      have h2 := ih plans.tail (succSend cfg s) (count + 1)
        (fun p hp' => hnd p (List.mem_of_mem_tail hp'))
        (by simp [succSend, hc]) (by simp [succSend, hr]) (by simp [succSend, hp])
        (by omega) (by omega)
      rw [h2, show N - count = (N - (count + 1)) + 1 by omega,
        Function.iterate_succ_apply]
    · have hco : count = N := by omega
      have hnlt : ¬((count : Int) < cfg.maxMessages) := by
        rw [hN, hco]; exact lt_irrefl _
      rw [loopCore_exit cfg plans (fuel + 1) s count (by tauto)]
      simp [show N - count = 0 by omega]

/-- Consuming a drop-free prefix of the schedule: the loop performs one
successful send per prefix entry and then continues with the remaining
schedule, provided the ceiling is not reached inside the prefix. -/
theorem loopCore_noDrop_prefix (cfg : Config) (N : Nat) (hN : cfg.maxMessages = (N : Int)) :
    ∀ (pre rest : List IterPlan) fuel s count, (∀ p ∈ pre, p.drop = false) →
      s.connected = true → s.isRunning = true → s.isPaused = false →
      count + pre.length ≤ N → pre.length ≤ fuel →
      loopCore cfg (pre ++ rest) fuel s count =
        loopCore cfg rest (fuel - pre.length) ((succSend cfg)^[pre.length] s)
          (count + pre.length) := by
  intro pre
  induction pre with
  | nil => intro rest fuel s count _ _ _ _ _ _; simp
  | cons p pre ih =>
    intro rest fuel s count hnd hc hr hp hcn hf
    simp only [List.length_cons] at hcn hf
    cases fuel with
    | zero => omega
    | succ fuel =>
      have hd : ((p :: (pre ++ rest)).headD benignPlan).drop = false :=
        hnd p (List.mem_cons_self p pre)
      have hltI : (count : Int) < cfg.maxMessages := by
        rw [hN]; exact_mod_cast (by omega : count < N)
      rw [List.cons_append,
        loopCore_step_send cfg (p :: (pre ++ rest)) fuel s count hr hltI hp hd hc]
      simp only [List.tail_cons]
      rw [ih rest fuel (succSend cfg s) (count + 1)
        (fun q hq => hnd q (List.mem_cons_of_mem p hq))
        (by simp [succSend, hc]) (by simp [succSend, hr]) (by simp [succSend, hp])
        (by omega) (by omega)]
      rw [show count + 1 + pre.length = count + (p :: pre).length by simp; omega]
      rw [show fuel - pre.length = fuel + 1 - (p :: pre).length by simp]
      rw [show (succSend cfg)^[pre.length] (succSend cfg s)
            = (succSend cfg)^[(p :: pre).length] s by
          simp [Function.iterate_succ_apply]]

/-- All Events produced by mapping prompt records over a range are of kind
`prompt`, so the prompt filter keeps them all. -/
theorem filter_prompt_length (k : Nat) (g : Nat → String) (sess : Nat) :
    (((List.range k).map (fun j =>
        ({ kind := EvKind.prompt, content := g j, session := sess } : Event))).filter
      (fun e => e.kind == EvKind.prompt)).length = k := by
  rw [List.filter_eq_self.mpr]
  · simp
  · intro e he
    simp only [List.mem_map] at he
    obtain ⟨j, -, rfl⟩ := he
    rfl

/-! ## Claim C1: fault-free sessions send exactly maxMessages prompts -/

/-- C1: for every configuration whose resolved ceiling is `N >= 1` and every
run in which no send or connect operation fails (a schedule with no
connection drops), the training loop terminates normally with the
messages-sent counter equal to `N` and exactly `N` ledger entries of kind
`prompt` — one per `sendMessage` call. -/
theorem trainingLoop_completes_without_failures (cfg : Config) (N fuel : Nat)
    (plans : List IterPlan)
    (hN : cfg.maxMessages = (N : Int)) (hpos : 1 ≤ N)
    (hplans : ∀ p ∈ plans, p.drop = false) (hfuel : N ≤ fuel) :
    ∃ s', runSession cfg plans fuel = some s' ∧
      s'.stats.messageCount = N ∧
      (s'.trainingData.filter (fun e => e.kind == EvKind.prompt)).length = N := by
  have h0 := loopCore_noDrop cfg N hN fuel plans (startTraining initialState) 0
    hplans rfl rfl rfl (by omega) (by omega)
  obtain ⟨h1, h2, h3, h4, h5, h6, h7, h8, h9⟩ :=
    succSend_iter cfg (startTraining initialState) (N - 0)
  refine ⟨stopTraining ((succSend cfg)^[N - 0] (startTraining initialState)), ?_, ?_, ?_⟩
  · simp [runSession, trainingLoop, h0]
  · have hmc : ((succSend cfg)^[N - 0] (startTraining initialState)).stats.messageCount
        = 0 + (N - 0) := h1
    simp only [stopTraining]
    rw [hmc]
    omega
  · have hdata : ((succSend cfg)^[N - 0] (startTraining initialState)).trainingData
        = (List.range (N - 0)).map (fun j =>
            ({ kind := EvKind.prompt, content := promptAt cfg (0 + j),
               session := 1 } : Event)) := h9
    simp only [stopTraining]
    rw [hdata, filter_prompt_length]
    omega

/-- Configuration with a ceiling of three messages, for concrete runs. -/
def threeConfig : Config :=
  { nodeUrl := "ws://localhost:8080/chat"
    trainingMode := "general"
    messageInterval := 3000
    maxMessages := 3
    customPrompts := []
    logFile := "gaia-training.json" }

/-- Witness for C1: a fault-free session with ceiling 3. -/
theorem trainingLoop_completes_without_failures_witness :
    ∃ s', runSession threeConfig [] 3 = some s' ∧
      s'.stats.messageCount = 3 ∧
      (s'.trainingData.filter (fun e => e.kind == EvKind.prompt)).length = 3 :=
  trainingLoop_completes_without_failures threeConfig 3 3 [] rfl (by omega)
    (fun p hp => absurd hp (List.not_mem_nil p)) (by omega)

/-- Schedule entry for a connection drop whose reconnect succeeds. -/
def dropRecPlan : IterPlan := { drop := true, reconnectOk := true }

/-- Schedule entry for a connection drop whose reconnect fails. -/
def dropFailPlan : IterPlan := { drop := true, reconnectOk := false }

/-! ## Claim C3: one transient send failure, successful reconnect -/

/-- C3: in a run whose only transport fault is a single connection drop
before send attempt `f` (with `f < N`), followed by a successful
reconnect, the session resumes and runs until the ceiling `N` is met, the
error counter ends at 1, and the ledger holds exactly `N` prompt Events:
the cursor position `f` consumed by the failed send produces no Event and
is never resent (prompt Events cover cursor positions `0..f-1` and
`f+1..N`), so there is no duplicate for the failed send. -/
theorem trainingLoop_one_transient_failure (cfg : Config) (N f fuel : Nat)
    (hN : cfg.maxMessages = (N : Int)) (hf : f < N) (hfuel : N + 1 ≤ fuel) :
    ∃ s', runSession cfg (List.replicate f benignPlan ++ [dropRecPlan]) fuel = some s' ∧
      s'.stats.messageCount = N ∧
      s'.stats.errors = 1 ∧
      s'.trainingData =
        (List.range f).map (fun j =>
          ({ kind := EvKind.prompt, content := promptAt cfg j, session := 1 } : Event)) ++
        (List.range (N - f)).map (fun j =>
          ({ kind := EvKind.prompt, content := promptAt cfg (f + 1 + j),
             session := 1 } : Event)) ∧
      (s'.trainingData.filter (fun e => e.kind == EvKind.prompt)).length = N := by
  obtain ⟨a1, a2, a3, a4, a5, a6, a7, a8, a9⟩ :=
    succSend_iter cfg (startTraining initialState) f
  have hc_f : ((succSend cfg)^[f] (startTraining initialState)).connected = true :=
    a6.trans (rfl : (startTraining initialState).connected = true)
  have hr_f : ((succSend cfg)^[f] (startTraining initialState)).isRunning = true :=
    a7.trans (rfl : (startTraining initialState).isRunning = true)
  have hp_f : ((succSend cfg)^[f] (startTraining initialState)).isPaused = false :=
    a8.trans (rfl : (startTraining initialState).isPaused = false)
  have hB := loopCore_noDrop_prefix cfg N hN (List.replicate f benignPlan) [dropRecPlan]
    fuel (startTraining initialState) 0
    (fun p hp => by rw [List.eq_of_mem_replicate hp]; rfl)
    rfl rfl rfl (by simp; omega) (by simp; omega)
  simp only [List.length_replicate, Nat.zero_add] at hB
  obtain ⟨k, hk⟩ : ∃ k, fuel - f = k + 1 := ⟨fuel - f - 1, by omega⟩
  have hltI : ((f : Nat) : Int) < cfg.maxMessages := by
    rw [hN]; exact_mod_cast hf
  have hD := loopCore_step_dropRec cfg [dropRecPlan] k
    ((succSend cfg)^[f] (startTraining initialState)) f hr_f hltI hp_f rfl
  have hA := loopCore_noDrop cfg N hN k []
    (failSendReconnect ((succSend cfg)^[f] (startTraining initialState))) f
    (fun p hp => absurd hp (List.not_mem_nil p))
    (by simp [failSendReconnect])
    (by simp [failSendReconnect, hr_f])
    (by simp [failSendReconnect, hp_f])
    (by omega) (by omega)
  obtain ⟨b1, b2, b3, b4, b5, b6, b7, b8, b9⟩ := succSend_iter cfg
    (failSendReconnect ((succSend cfg)^[f] (startTraining initialState))) (N - f)
  have hRun : runSession cfg (List.replicate f benignPlan ++ [dropRecPlan]) fuel =
      some (stopTraining ((succSend cfg)^[N - f]
        (failSendReconnect ((succSend cfg)^[f] (startTraining initialState))))) := by
    show (loopCore cfg (List.replicate f benignPlan ++ [dropRecPlan]) fuel
        (startTraining initialState) 0).map stopTraining = _
    rw [hB, hk, hD]
    simp only [List.tail_cons]
    rw [hA]
    rfl
  have hS1mc : (failSendReconnect ((succSend cfg)^[f]
      (startTraining initialState))).stats.messageCount = f := by
    simp only [failSendReconnect]
    rw [a1]
    simp [startTraining, initialState]
  have hS1err : (failSendReconnect ((succSend cfg)^[f]
      (startTraining initialState))).stats.errors = 1 := by
    simp only [failSendReconnect]
    rw [a2]
    simp [startTraining, initialState]
  have hS1cur : (failSendReconnect ((succSend cfg)^[f]
      (startTraining initialState))).currentPromptIndex = f + 1 := by
    simp only [failSendReconnect]
    rw [a5]
    simp [startTraining, initialState]
  have hS1sess : (failSendReconnect ((succSend cfg)^[f]
      (startTraining initialState))).stats.sessionCount = 1 := by
    simp only [failSendReconnect]
    rw [a4]
    simp [startTraining, initialState]
  have hS1dat : (failSendReconnect ((succSend cfg)^[f]
      (startTraining initialState))).trainingData =
      (List.range f).map (fun j =>
        ({ kind := EvKind.prompt, content := promptAt cfg j, session := 1 } : Event)) := by
    simp only [failSendReconnect]
    rw [a9]
    simp [startTraining, initialState]
  have hdataX : (stopTraining ((succSend cfg)^[N - f]
      (failSendReconnect ((succSend cfg)^[f] (startTraining initialState))))).trainingData =
      (List.range f).map (fun j =>
        ({ kind := EvKind.prompt, content := promptAt cfg j, session := 1 } : Event)) ++
      (List.range (N - f)).map (fun j =>
        ({ kind := EvKind.prompt, content := promptAt cfg (f + 1 + j),
           session := 1 } : Event)) := by
    simp only [stopTraining]
    rw [b9, hS1dat, hS1cur, hS1sess]
  refine ⟨_, hRun, ?_, ?_, hdataX, ?_⟩
  · simp only [stopTraining]
    rw [b1, hS1mc]
    omega
  · simp only [stopTraining]
    rw [b2, hS1err]
  · rw [hdataX, List.filter_append, List.length_append,
      filter_prompt_length, filter_prompt_length]
    omega

/-- Witness for C3: ceiling 3, drop before the second send attempt. -/
theorem trainingLoop_one_transient_failure_witness :
    ∃ s', runSession threeConfig (List.replicate 1 benignPlan ++ [dropRecPlan]) 5 = some s' ∧
      s'.stats.messageCount = 3 ∧
      s'.stats.errors = 1 ∧
      s'.trainingData =
        (List.range 1).map (fun j =>
          ({ kind := EvKind.prompt, content := promptAt threeConfig j,
             session := 1 } : Event)) ++
        (List.range (3 - 1)).map (fun j =>
          ({ kind := EvKind.prompt, content := promptAt threeConfig (1 + 1 + j),
             session := 1 } : Event)) ∧
      (s'.trainingData.filter (fun e => e.kind == EvKind.prompt)).length = 3 :=
  trainingLoop_one_transient_failure threeConfig 3 1 5 rfl (by omega) (by omega)

/-! ## Claim C4: reconnect-failure policy -/

/-- C4 counterexample: a run with a mid-session transport fault and a
SINGLE reconnect failure is fatal — the catch block breaks out of the loop
at once, and the session shuts down with the ceiling unmet (messages sent
0 of 3, one error counted, no longer running).  There is no second
reconnect attempt. -/
theorem singleReconnectFailure_is_fatal :
    (runSession threeConfig [dropFailPlan] 5).map
      (fun s => (s.stats.messageCount, s.isRunning, s.stats.errors)) =
      some (0, false, 1) := by
  decide

/-- C4 (amended): the FIRST reconnect failure after a mid-session transport
fault forces shutdown: with a fault at send attempt `f < N` whose
reconnect fails, the loop exits immediately with `f` messages sent (below
the ceiling), one counted error, and the session stopped.  Reconnection is
attempted exactly once per fault, so it is indeed never retried
indefinitely — but it is also not retried a second time. -/
theorem trainingLoop_reconnect_failure_stops (cfg : Config) (N f fuel : Nat)
    (hN : cfg.maxMessages = (N : Int)) (hf : f < N) (hfuel : f + 1 ≤ fuel) :
    ∃ s', runSession cfg (List.replicate f benignPlan ++ [dropFailPlan]) fuel = some s' ∧
      s'.isRunning = false ∧
      s'.stats.messageCount = f ∧
      s'.stats.messageCount < N ∧
      s'.stats.errors = 1 := by
  obtain ⟨a1, a2, a3, a4, a5, a6, a7, a8, a9⟩ :=
    succSend_iter cfg (startTraining initialState) f
  have hr_f : ((succSend cfg)^[f] (startTraining initialState)).isRunning = true :=
    a7.trans (rfl : (startTraining initialState).isRunning = true)
  have hp_f : ((succSend cfg)^[f] (startTraining initialState)).isPaused = false :=
    a8.trans (rfl : (startTraining initialState).isPaused = false)
  have hB := loopCore_noDrop_prefix cfg N hN (List.replicate f benignPlan) [dropFailPlan]
    fuel (startTraining initialState) 0
    (fun p hp => by rw [List.eq_of_mem_replicate hp]; rfl)
    rfl rfl rfl (by simp; omega) (by simp; omega)
  simp only [List.length_replicate, Nat.zero_add] at hB
  obtain ⟨k, hk⟩ : ∃ k, fuel - f = k + 1 := ⟨fuel - f - 1, by omega⟩
  have hltI : ((f : Nat) : Int) < cfg.maxMessages := by
    rw [hN]; exact_mod_cast hf
  have hD := loopCore_step_dropRecFail cfg [dropFailPlan] k
    ((succSend cfg)^[f] (startTraining initialState)) f hr_f hltI hp_f rfl
  have hRun : runSession cfg (List.replicate f benignPlan ++ [dropFailPlan]) fuel =
      some (stopTraining (failSendStop ((succSend cfg)^[f] (startTraining initialState)))) := by
    show (loopCore cfg (List.replicate f benignPlan ++ [dropFailPlan]) fuel
        (startTraining initialState) 0).map stopTraining = _
    rw [hB, hk, hD]
    rfl
  refine ⟨_, hRun, rfl, ?_, ?_, ?_⟩
  · simp only [stopTraining, failSendStop]
    rw [a1]
    simp [startTraining, initialState]
  · simp only [stopTraining, failSendStop]
    rw [a1]
    simp [startTraining, initialState]
    omega
  · simp only [stopTraining, failSendStop]
    rw [a2]
    simp [startTraining, initialState]

/-- Witness for the amended C4: ceiling 3, fault at the second attempt,
failed reconnect. -/
theorem trainingLoop_reconnect_failure_stops_witness :
    ∃ s', runSession threeConfig (List.replicate 1 benignPlan ++ [dropFailPlan]) 5 = some s' ∧
      s'.isRunning = false ∧
      s'.stats.messageCount = 1 ∧
      s'.stats.messageCount < 3 ∧
      s'.stats.errors = 1 :=
  trainingLoop_reconnect_failure_stops threeConfig 3 1 5 rfl (by omega) (by omega)

/-! ## Claim C5: the session sequence number across reconnects -/

/-- Throughout any training-loop run — whatever faults and reconnects the
schedule injects — the session sequence number never changes, and every
ledger entry produced during the run carries the sessionCount the loop
started with (the reconnect path calls `connectToNode` directly and never
touches `stats.sessionCount`). -/
theorem loopCore_session_inv (cfg : Config) :
    ∀ fuel plans s count s', loopCore cfg plans fuel s count = some s' →
      s'.stats.sessionCount = s.stats.sessionCount ∧
      ∀ e ∈ s'.trainingData, e ∈ s.trainingData ∨ e.session = s.stats.sessionCount := by
  intro fuel
  induction fuel with
  | zero =>
    intro plans s count s' h
    rw [loopCore] at h
    by_cases hc : s.isRunning = true ∧ (count : Int) < cfg.maxMessages
    · rw [if_pos hc] at h
      exact absurd h (by simp)
    · rw [if_neg hc, Option.some.injEq] at h
      subst h
      exact ⟨rfl, fun e he => Or.inl he⟩
  | succ fuel ih =>
    intro plans s count s' h
    rw [loopCore] at h
    by_cases hc : s.isRunning = true ∧ (count : Int) < cfg.maxMessages
    · rw [if_pos hc] at h
      by_cases hp : s.isPaused = true
      · rw [if_pos hp] at h
        exact ih plans s count s' h
      · rw [if_neg hp] at h
        cases hdrop : (plans.head?.getD benignPlan).drop with
        | true =>
          cases hrec : (plans.head?.getD benignPlan).reconnectOk with
          | true =>
            simp [hdrop, hrec, sendMessage, jsIncludes_webSocket] at h
            have hih := ih _ _ _ _ h
            exact ⟨hih.1, hih.2⟩
          | false =>
            simp [hdrop, hrec, sendMessage, jsIncludes_webSocket] at h
            subst h
            exact ⟨rfl, fun e he => Or.inl he⟩
        | false =>
          cases hconn : s.connected with
          | true =>
            simp [hdrop, hconn, sendMessage] at h
            obtain ⟨h1, h2⟩ := ih _ _ _ _ h
            refine ⟨h1, fun e he => ?_⟩
            rcases h2 e he with hmem | hsess
            · rcases List.mem_append.mp hmem with h3 | h4
              · exact Or.inl h3
              · obtain rfl := List.mem_singleton.mp h4
                exact Or.inr rfl
            · exact Or.inr hsess
          | false =>
            cases hrec : (plans.head?.getD benignPlan).reconnectOk with
            | true =>
              simp [hdrop, hconn, hrec, sendMessage, jsIncludes_webSocket] at h
              have hih := ih _ _ _ _ h
              exact ⟨hih.1, hih.2⟩
            | false =>
              simp [hdrop, hconn, hrec, sendMessage, jsIncludes_webSocket] at h
              subst h
              exact ⟨rfl, fun e he => Or.inl he⟩
    · rw [if_neg hc, Option.some.injEq] at h
      subst h
      exact ⟨rfl, fun e he => Or.inl he⟩

/-- Configuration with a ceiling of two messages, for concrete runs. -/
def twoConfig : Config :=
  { nodeUrl := "ws://localhost:8080/chat"
    trainingMode := "general"
    messageInterval := 3000
    maxMessages := 2
    customPrompts := []
    logFile := "gaia-training.json" }

/-- C5 counterexample: a run with one successful send, then a transport
fault with a SUCCESSFUL mid-session reconnect, then one more successful
send.  The run completes (messagesSent 2, one error recovered), yet the
final session sequence number is still 1 — the reconnect did not increment
it — and the prompt Event recorded after the reconnect carries session 1,
not a larger session number than the Event recorded before the fault. -/
theorem reconnect_does_not_increment_session :
    (runSession twoConfig [benignPlan, dropRecPlan] 4).map
      (fun s => (s.stats.sessionCount, s.trainingData.map (fun e => e.session),
        s.stats.errors, s.stats.messageCount)) = some (1, [1, 1], 1, 2) := by
  decide

/-- C5 (amended): the session sequence number is incremented exactly once
per `startTraining` (the initial connect of a run); mid-session
reconnects inside the training loop never increment it, so every Event
recorded during the run — before or after any successful reconnect —
carries the same session number the run started with. -/
theorem sessionCount_incremented_only_at_start (cfg : Config) (plans : List IterPlan)
    (fuel count : Nat) (s s' : BotState)
    (h : loopCore cfg plans fuel s count = some s') :
    (startTraining s).stats.sessionCount = s.stats.sessionCount + 1 ∧
    s'.stats.sessionCount = s.stats.sessionCount ∧
    ∀ e ∈ s'.trainingData, e ∈ s.trainingData ∨ e.session = s.stats.sessionCount := by
  obtain ⟨h1, h2⟩ := loopCore_session_inv cfg fuel plans s count s' h
  exact ⟨rfl, h1, h2⟩

/-- Witness for the amended C5 at a concrete exited loop. -/
theorem sessionCount_incremented_only_at_start_witness :
    (startTraining initialState).stats.sessionCount = initialState.stats.sessionCount + 1 ∧
    initialState.stats.sessionCount = initialState.stats.sessionCount ∧
    ∀ e ∈ initialState.trainingData, e ∈ initialState.trainingData ∨
      e.session = initialState.stats.sessionCount :=
  sessionCount_incremented_only_at_start threeConfig [] 0 0 initialState initialState rfl
